import Mathlib

/-!
Shallow embedding of the coordination core of the ImmunoTrack collector
service, translated from `collector-service/dynamodb_basic.py` and
`collector-service/app.py`.

Modelling conventions:

* A DynamoDB item of the alert table is an attribute map.  The attributes
  the core reads or writes are modelled as `Option`-valued fields of
  `AlertRecord` (`none` means the attribute is absent from the item).  The
  table itself is a map from the string partition key `id` to an optional
  record (`AlertStore`).
* All timestamps the code writes are ISO-8601 strings produced with the
  same fixed UTC-3 offset; such strings compare lexicographically in
  chronological order, so instants are modelled as naturals and
  `now + ttl` models `agora + timedelta(seconds=ttl_seconds)`.
* Temperatures (Python floats carrying decimal sensor values) are
  modelled as rationals.
* DynamoDB evaluates a `ConditionExpression` and applies the write
  atomically, so a race of N concurrent callers on one key behaves as
  some serialisation of the N calls; callers racing at one instant all
  observe the same clock value `now`.
* Every store-level function returns the resulting table state together
  with the boolean the Python method returns.  The `ClientError` handler
  that maps `ConditionalCheckFailedException` to `False` is part of the
  modelled control flow; other exception paths (network failure) are
  outside the model, which describes the store-reachable executions.
-/

/-- Item of the `immunotrack-alertas` table, restricted to the attributes
the coordination core reads or writes.  `none` = attribute absent. -/
structure AlertRecord where
  id_sensor : Option String
  temperatura : Option ℚ
  tipo_alerta : Option String
  mensagem : Option String
  severidade : Option String
  data_criacao : Option ℕ
  notified : Option Bool
  notified_at : Option ℕ
  resolvido : Option Bool
  data_resolvido : Option ℕ
deriving DecidableEq

/-- The fresh item DynamoDB materialises before applying `SET` clauses of
an `update_item` on a key that has no item yet: every attribute absent. -/
def emptyAlert : AlertRecord :=
  ⟨none, none, none, none, none, none, none, none, none, none⟩

/-- The alert table: partition key `id` to optional item. -/
abbrev AlertStore := String → Option AlertRecord

/-- Point update of the table at one key (the effect of a successful
`put_item`/`update_item`). -/
def updateStore (store : AlertStore) (alertaId : String) (rec : AlertRecord) : AlertStore :=
  fun k => if k = alertaId then some rec else store k

/-- The leader lease item kept under the fixed key `leader#collector`
(`dynamodb_basic.py`, `adquirir_lease_lider`): `ownerId`, `data_criacao`
(the acquisition instant) and `expiresAt`. -/
structure LeaseRecord where
  ownerId : String
  data_criacao : ℕ
  expiresAt : ℕ
deriving DecidableEq

/-- `DynamoDBService.marcar_alerta_notificado_uma_vez` (dynamodb_basic.py
lines 511-538): `update_item` with
`UpdateExpression = SET notified = true, notified_at = now` guarded by
`ConditionExpression = attribute_not_exists(notified) OR notified <> true`.
On a missing item the update upserts a fresh item; a failed condition is
returned as `false`. -/
def marcar_alerta_notificado_uma_vez (store : AlertStore) (alertaId : String) (now : ℕ) :
    AlertStore × Bool :=
  match store alertaId with
  | none =>
      (updateStore store alertaId
        { emptyAlert with notified := some true, notified_at := some now }, true)
  | some rec =>
      if rec.notified = some true then
        (store, false)
      else
        (updateStore store alertaId
          { rec with notified := some true, notified_at := some now }, true)

/-- `DynamoDBService.marcar_alerta_resolvido` (dynamodb_basic.py lines
389-419): `get_item` first; when the item is missing return `false`,
otherwise an unconditional `update_item` with
`SET resolvido = true, data_resolvido = now`, returning `true`. -/
def marcar_alerta_resolvido (store : AlertStore) (alertaId : String) (now : ℕ) :
    AlertStore × Bool :=
  match store alertaId with
  | none => (store, false)
  | some rec =>
      (updateStore store alertaId
        { rec with resolvido := some true, data_resolvido := some now }, true)

/-- `DynamoDBService.adquirir_lease_lider` (dynamodb_basic.py lines
423-461): `put_item` of `{id = leader#collector, ownerId, data_criacao =
now, expiresAt = now + ttl}` guarded by
`ConditionExpression = attribute_not_exists(id) OR expiresAt < now`.
The lease slot (the single item under the fixed key) is modelled on its
own. -/
def adquirir_lease_lider (lease : Option LeaseRecord) (ownerId : String) (now ttl : ℕ) :
    Option LeaseRecord × Bool :=
  match lease with
  | none => (some ⟨ownerId, now, now + ttl⟩, true)
  | some rec =>
      if rec.expiresAt < now then
        (some ⟨ownerId, now, now + ttl⟩, true)
      else
        (some rec, false)

/-- `DynamoDBService.renovar_lease_lider` (dynamodb_basic.py lines
463-493): `update_item` on key `leader#collector` with
`SET expiresAt = now + ttl` guarded by `ConditionExpression = ownerId =
caller`.  On a missing item the condition fails, which the handler maps to
`false`; note the expiry of the stored record is not consulted. -/
def renovar_lease_lider (lease : Option LeaseRecord) (ownerId : String) (now ttl : ℕ) :
    Option LeaseRecord × Bool :=
  match lease with
  | none => (none, false)
  | some rec =>
      if rec.ownerId = ownerId then
        (some { rec with expiresAt := now + ttl }, true)
      else
        (some rec, false)

/-- Severity mapping of `criar_alerta_emergencia` (app.py lines 109-115):
`TEMPERATURA_CRITICA` (CRITICAL_TEMPERATURE in the spec) maps to `CRITICO`
(CRITICAL), `SENSOR_OFFLINE` to `ALTO` (HIGH), anything else to `MEDIO`
(MEDIUM). -/
def classificar_severidade (tipoAlerta : String) : String :=
  if tipoAlerta = "TEMPERATURA_CRITICA" then "CRITICO"
  else if tipoAlerta = "SENSOR_OFFLINE" then "ALTO"
  else "MEDIO"

/-- Outcome of the critical-notification block: whether the conditional
mark was attempted and whether `notificar_alerta_aws` was invoked. -/
structure DispatchResult where
  markCalled : Bool
  sendCalled : Bool
deriving DecidableEq

/-- Critical-notification dispatch of `criar_alerta_emergencia` (app.py
lines 155-167): only for `severidade = CRITICO`; with a DB service and
local leadership, call `marcar_alerta_notificado_uma_vez` and send only
when it returned true; without a DB service a leader sends unconditionally
(the in-memory fallback branch); a follower does nothing. -/
def despachar_notificacao_critica (severidade : String) (hasDb isLeader : Bool)
    (store : AlertStore) (alertaId : String) (now : ℕ) : AlertStore × DispatchResult :=
  if severidade = "CRITICO" then
    if hasDb && isLeader then
      let r := marcar_alerta_notificado_uma_vez store alertaId now
      (r.1, ⟨true, r.2⟩)
    else if isLeader then
      (store, ⟨false, true⟩)
    else
      (store, ⟨false, false⟩)
  else
    (store, ⟨false, false⟩)

/-- `criar_alerta_emergencia` (app.py lines 102-169), coordination-relevant
part: derive the severity, build the alert item (the fields
`salvar_alerta` writes), persist it when the DB service is present, then
run the critical-notification dispatch under the persisted id.  Returns
the built alert, the resulting table and the dispatch outcome. -/
def criar_alerta_emergencia (store : AlertStore) (hasDb isLeader : Bool)
    (idSensor : String) (temperatura : ℚ) (tipoAlerta mensagem : String)
    (now : ℕ) (alertaId : String) : AlertRecord × AlertStore × DispatchResult :=
  let severidade := classificar_severidade tipoAlerta
  let alerta : AlertRecord :=
    { id_sensor := some idSensor, temperatura := some temperatura,
      tipo_alerta := some tipoAlerta, mensagem := some mensagem,
      severidade := some severidade, data_criacao := some now,
      notified := none, notified_at := none, resolvido := none,
      data_resolvido := none }
  let store2 := if hasDb then updateStore store alertaId alerta else store
  let r := despachar_notificacao_critica severidade hasDb isLeader store2 alertaId now
  (alerta, r.1, r.2)

/-- One persisted temperature reading (the fields of `DadosTemperatura`). -/
structure Reading where
  id_sensor : String
  temperatura : ℚ
  timestamp : ℕ
deriving DecidableEq

/-- Result of the ingestion endpoint: the reading list after the append,
the alert table, the alert created (if any), the dispatch outcome of the
created alert (if any), and the acknowledgement fields of the HTTP
response. -/
structure IngestResult where
  dados : List Reading
  alertas : AlertStore
  alerta : Option AlertRecord
  despacho : Option DispatchResult
  alerta_criado : Bool
  status : String

/-- `receber_temperatura` (app.py lines 1460-1497): always append the
reading (in memory and via `salvar_temperatura`); when the temperature is
below 2.0 or above 8.0, call `criar_alerta_emergencia` with alert type
`TEMPERATURA_CRITICA` and answer with `alerta_criado = true` and status
`AVISO`; otherwise answer `OK` with no alert. -/
def receber_temperatura (dados : List Reading) (store : AlertStore)
    (hasDb isLeader : Bool) (idSensor : String) (temperatura : ℚ)
    (ts now : ℕ) (alertaId : String) : IngestResult :=
  let dados2 := dados ++ [⟨idSensor, temperatura, ts⟩]
  if temperatura < 2 ∨ temperatura > 8 then
    let r := criar_alerta_emergencia store hasDb isLeader idSensor temperatura
      "TEMPERATURA_CRITICA" "Temperatura critica detectada - fora da faixa segura" now alertaId
    { dados := dados2, alertas := r.2.1, alerta := some r.1,
      despacho := some r.2.2, alerta_criado := true, status := "AVISO" }
  else
    { dados := dados2, alertas := store, alerta := none,
      despacho := none, alerta_criado := false, status := "OK" }

/-- Replication status computed by `painel_visual` (app.py lines 807-849):
replica counters are `none` when the replica table is unreachable or not
configured; with both replica counters available the status is `em dia`
("in sync") when both counters match their primary, `atraso` ("lagging")
otherwise; with any replica counter missing the status stays the default
`não habilitada` ("not enabled"). -/
def status_replicacao (contadorTemperaturas : ℕ) (contadorTemperaturasReplica : Option ℕ)
    (contadorAlertas : ℕ) (contadorAlertasReplica : Option ℕ) : String :=
  match contadorTemperaturasReplica, contadorAlertasReplica with
  | some tr, some ar =>
      if tr = contadorTemperaturas ∧ ar = contadorAlertas then "em dia" else "atraso"
  | _, _ => "não habilitada"

/-- Serialisation of N racing `marcar_alerta_notificado_uma_vez` calls on
one alert id, each with its own clock value. -/
def runMarks (store : AlertStore) (alertaId : String) : List ℕ → AlertStore × List Bool
  | [] => (store, [])
  | t :: ts =>
      let r := marcar_alerta_notificado_uma_vez store alertaId t
      let rest := runMarks r.1 alertaId ts
      (rest.1, r.2 :: rest.2)

/-- Serialisation of N racing `adquirir_lease_lider` calls at one clock
instant, one per competing owner. -/
def runAcquires (lease : Option LeaseRecord) (now ttl : ℕ) :
    List String → Option LeaseRecord × List Bool
  | [] => (lease, [])
  | o :: os =>
      let r := adquirir_lease_lider lease o now ttl
      let rest := runAcquires r.1 now ttl os
      (rest.1, r.2 :: rest.2)

/-- Number of `true` results among a list of call outcomes. -/
def countTrue : List Bool → ℕ
  | [] => 0
  | true :: rs => countTrue rs + 1
  | false :: rs => countTrue rs

/-- Already-resolved alert used to exhibit post-resolution mutability. -/
def alertaResolvido : AlertRecord :=
  { emptyAlert with resolvido := some true, data_resolvido := some 5 }

theorem updateStore_same (store : AlertStore) (alertaId : String) (rec : AlertRecord) :
    updateStore store alertaId rec alertaId = some rec := by
  simp [updateStore]

theorem updateStore_other (store : AlertStore) (alertaId k : String) (rec : AlertRecord)
    (h : k ≠ alertaId) : updateStore store alertaId rec k = store k := by
  simp [updateStore, h]

theorem adquirir_fail_of_held (rec : LeaseRecord) (ownerId : String) (now ttl : ℕ)
    (h : ¬ rec.expiresAt < now) :
    adquirir_lease_lider (some rec) ownerId now ttl = (some rec, false) := by
  simp [adquirir_lease_lider, h]

theorem runAcquires_held (now ttl : ℕ) (rec : LeaseRecord) (h : ¬ rec.expiresAt < now) :
    ∀ os : List String,
      runAcquires (some rec) now ttl os = (some rec, List.replicate os.length false) := by
  intro os
  induction os with
  | nil => simp [runAcquires]
  | cons o os ih =>
      simp [runAcquires, adquirir_fail_of_held rec o now ttl h, ih, List.replicate_succ]

theorem countTrue_replicate_false : ∀ n : ℕ, countTrue (List.replicate n false) = 0 := by
  intro n
  induction n with
  | zero => rfl
  | succ n ih => simp [List.replicate_succ, countTrue, ih]

/-- Claim C2: `adquirir_lease_lider(ownerId, ttl)` returns true iff no
lease record exists or the stored `expiresAt` is in the past; on success
it writes `{ownerId, data_criacao = now, expiresAt = now + ttl}`; and
among N callers racing at one instant on an absent or expired lease,
exactly one call returns true. -/
theorem adquirir_lease_exclusivo (lease : Option LeaseRecord) (ownerId : String)
    (now ttl : ℕ) :
    ((adquirir_lease_lider lease ownerId now ttl).2 = true ↔
        lease = none ∨ ∃ rec, lease = some rec ∧ rec.expiresAt < now)
  ∧ ((adquirir_lease_lider lease ownerId now ttl).2 = true →
        (adquirir_lease_lider lease ownerId now ttl).1 = some ⟨ownerId, now, now + ttl⟩)
  ∧ ((lease = none ∨ ∃ rec, lease = some rec ∧ rec.expiresAt < now) →
        ∀ (o : String) (os : List String),
          countTrue (runAcquires lease now ttl (o :: os)).2 = 1) := by
  have main : ∀ (o : String) (os : List String),
      (lease = none ∨ ∃ rec, lease = some rec ∧ rec.expiresAt < now) →
      countTrue (runAcquires lease now ttl (o :: os)).2 = 1 := by
    intro o os hfree
    have hstep : adquirir_lease_lider lease o now ttl = (some ⟨o, now, now + ttl⟩, true) := by
      rcases hfree with h | ⟨rec, hrec, hexp⟩
      · subst h; rfl
      · subst hrec; simp [adquirir_lease_lider, hexp]
    have hheld : ¬ (⟨o, now, now + ttl⟩ : LeaseRecord).expiresAt < now := by
      simp
    simp [runAcquires, hstep, runAcquires_held now ttl _ hheld os, countTrue,
      countTrue_replicate_false]
  refine ⟨?_, ?_, fun h o os => main o os h⟩
  · cases lease with
    | none => simp [adquirir_lease_lider]
    | some rec =>
        by_cases hexp : rec.expiresAt < now
        · simp [adquirir_lease_lider, hexp]
        · simp [adquirir_lease_lider, hexp]
  · cases lease with
    | none => intro _; rfl
    | some rec =>
        by_cases hexp : rec.expiresAt < now
        · intro _; simp [adquirir_lease_lider, hexp]
        · intro hcontra
          simp [adquirir_lease_lider, hexp] at hcontra

/-- Witness for C2: with no stored lease, instance i-1 acquires at
instant 10 with ttl 20 obtaining expiry 30, and in a three-way race the
count of successful acquisitions is exactly one. -/
theorem adquirir_lease_exclusivo_witness :
    (adquirir_lease_lider (none : Option LeaseRecord) "i-1" 10 20).2 = true
  ∧ (adquirir_lease_lider (none : Option LeaseRecord) "i-1" 10 20).1 = some ⟨"i-1", 10, 30⟩
  ∧ countTrue (runAcquires (none : Option LeaseRecord) 10 20 ["i-1", "i-2", "i-3"]).2 = 1 :=
  ⟨(adquirir_lease_exclusivo none "i-1" 10 20).1.mpr (Or.inl rfl),
   (adquirir_lease_exclusivo none "i-1" 10 20).2.1
     ((adquirir_lease_exclusivo none "i-1" 10 20).1.mpr (Or.inl rfl)),
   (adquirir_lease_exclusivo none "i-1" 10 20).2.2 (Or.inl rfl) "i-1" ["i-2", "i-3"]⟩

/-- Counterexample for C3: the claim predicts `renovar_lease_lider`
returns true whenever no different owner holds an unexpired lease, but
when no lease record exists at all the conditional update fails and the
code returns false. -/
theorem renovar_lease_sem_registro :
    ¬ (∀ (lease : Option LeaseRecord) (ownerId : String) (now ttl : ℕ),
        (renovar_lease_lider lease ownerId now ttl).2 = true ∨
        ∃ rec, lease = some rec ∧ rec.ownerId ≠ ownerId ∧ now ≤ rec.expiresAt) := by
  intro h
  rcases h none "i-1" 0 20 with hres | ⟨rec, hrec, _⟩
  · exact absurd hres (by decide)
  · exact Option.noConfusion hrec

/-- Claim C3 (amended): `renovar_lease_lider(ownerId, ttl)` succeeds iff a
lease record exists and its stored `ownerId` equals that of the caller (expiry
is not consulted), on success updating `expiresAt` to `now + ttl`; it
returns false whenever a different owner holds the record -- expired or
not -- and also when no record exists; exceptions are mapped to a false
result, never surfaced. -/
theorem renovar_lease_autoridade (lease : Option LeaseRecord) (ownerId : String)
    (now ttl : ℕ) :
    ((renovar_lease_lider lease ownerId now ttl).2 = true ↔
        ∃ rec, lease = some rec ∧ rec.ownerId = ownerId)
  ∧ (∀ rec, lease = some rec → rec.ownerId = ownerId →
        renovar_lease_lider lease ownerId now ttl =
          (some { rec with expiresAt := now + ttl }, true))
  ∧ (∀ rec, lease = some rec → rec.ownerId ≠ ownerId →
        renovar_lease_lider lease ownerId now ttl = (some rec, false)) := by
  refine ⟨?_, ?_, ?_⟩
  · cases lease with
    | none => simp [renovar_lease_lider]
    | some rec =>
        by_cases hown : rec.ownerId = ownerId
        · simp [renovar_lease_lider, hown]
        · simp [renovar_lease_lider, hown]
  · intro rec hrec hown
    subst hrec
    simp [renovar_lease_lider, hown]
  · intro rec hrec hown
    subst hrec
    simp [renovar_lease_lider, hown]

/-- Witness for C3 (amended): owner i-1 renews its own lease record
(expiry moves to 27); a renewal by owner i-2 against the record of i-1 fails. -/
theorem renovar_lease_autoridade_witness :
    renovar_lease_lider (some ⟨"i-1", 0, 10⟩) "i-1" 7 20 = (some ⟨"i-1", 0, 27⟩, true)
  ∧ renovar_lease_lider (some ⟨"i-1", 0, 10⟩) "i-2" 7 20 = (some ⟨"i-1", 0, 10⟩, false) :=
  ⟨(renovar_lease_autoridade (some ⟨"i-1", 0, 10⟩) "i-1" 7 20).2.1 ⟨"i-1", 0, 10⟩ rfl rfl,
   (renovar_lease_autoridade (some ⟨"i-1", 0, 10⟩) "i-2" 7 20).2.2 ⟨"i-1", 0, 10⟩ rfl
     (by decide)⟩

/-- Claim C9: severity classification is the pure fixed mapping --
`TEMPERATURA_CRITICA` (CRITICAL_TEMPERATURE) to `CRITICO` (CRITICAL),
`SENSOR_OFFLINE` to `ALTO` (HIGH), and every other alert type to `MEDIO`
(MEDIUM). -/
theorem classificar_severidade_spec :
    classificar_severidade "TEMPERATURA_CRITICA" = "CRITICO"
  ∧ classificar_severidade "SENSOR_OFFLINE" = "ALTO"
  ∧ ∀ t : String, t ≠ "TEMPERATURA_CRITICA" → t ≠ "SENSOR_OFFLINE" →
      classificar_severidade t = "MEDIO" := by
  refine ⟨rfl, rfl, ?_⟩
  intro t h1 h2
  simp [classificar_severidade, h1, h2]

/-- Witness for C9: the mapping evaluated at the three representative
alert types, the third one discharged through the general clause. -/
theorem classificar_severidade_spec_witness :
    classificar_severidade "TEMPERATURA_CRITICA" = "CRITICO"
  ∧ classificar_severidade "SENSOR_OFFLINE" = "ALTO"
  ∧ classificar_severidade "FALHA_ENERGIA" = "MEDIO" :=
  ⟨classificar_severidade_spec.1, classificar_severidade_spec.2.1,
    classificar_severidade_spec.2.2 "FALHA_ENERGIA" (by decide) (by decide)⟩

theorem marcar_fail_of_marked (store : AlertStore) (alertaId : String) (now : ℕ)
    (rec : AlertRecord) (h : store alertaId = some rec) (hm : rec.notified = some true) :
    marcar_alerta_notificado_uma_vez store alertaId now = (store, false) := by
  unfold marcar_alerta_notificado_uma_vez
  rw [h]
  simp [hm]

theorem marcar_success (store : AlertStore) (alertaId : String) (now : ℕ)
    (rec : AlertRecord) (h : store alertaId = some rec) (hm : rec.notified ≠ some true) :
    marcar_alerta_notificado_uma_vez store alertaId now =
      (updateStore store alertaId
        { rec with notified := some true, notified_at := some now }, true) := by
  unfold marcar_alerta_notificado_uma_vez
  rw [h]
  simp [hm]

theorem runMarks_marked (alertaId : String) (rec : AlertRecord)
    (hm : rec.notified = some true) :
    ∀ (ts : List ℕ) (store : AlertStore), store alertaId = some rec →
      runMarks store alertaId ts = (store, List.replicate ts.length false) := by
  intro ts
  induction ts with
  | nil => intro store h; simp [runMarks]
  | cons t ts ih =>
      intro store h
      simp [runMarks, marcar_fail_of_marked store alertaId t rec h hm, ih store h,
        List.replicate_succ]

/-- Claim C1: when the `notified` attribute of the stored record is absent or
not true, `marcar_alerta_notificado_uma_vez` returns true and atomically
sets `notified = true` (stamping `notified_at`); it returns false whenever
`notified` is already true; and for any serialisation of N racing calls on
the same alert id starting from an un-notified record, exactly one call
returns true. -/
theorem marcar_notificado_exatamente_uma_vez (store : AlertStore) (alertaId : String)
    (rec : AlertRecord) (hrec : store alertaId = some rec) :
    (rec.notified ≠ some true → ∀ now : ℕ,
        (marcar_alerta_notificado_uma_vez store alertaId now).2 = true ∧
        (marcar_alerta_notificado_uma_vez store alertaId now).1 alertaId =
          some { rec with notified := some true, notified_at := some now })
  ∧ (rec.notified = some true → ∀ now : ℕ,
        (marcar_alerta_notificado_uma_vez store alertaId now).2 = false)
  ∧ (rec.notified ≠ some true → ∀ (t : ℕ) (ts : List ℕ),
        countTrue (runMarks store alertaId (t :: ts)).2 = 1) := by
  refine ⟨?_, ?_, ?_⟩
  · intro hm now
    rw [marcar_success store alertaId now rec hrec hm]
    exact ⟨rfl, updateStore_same store alertaId _⟩
  · intro hm now
    rw [marcar_fail_of_marked store alertaId now rec hrec hm]
  · intro hm t ts
    have hstep := marcar_success store alertaId t rec hrec hm
    have hupd : (updateStore store alertaId
        { rec with notified := some true, notified_at := some t }) alertaId =
        some { rec with notified := some true, notified_at := some t } :=
      updateStore_same store alertaId _
    have hrest := runMarks_marked alertaId _ (by simp) ts _ hupd
    simp [runMarks, hstep, hrest, countTrue, countTrue_replicate_false]

/-- Witness for C1: on a store holding one alert with `notified` absent,
the first call at instant 3 succeeds and stamps the record, and a
three-way race yields exactly one success. -/
theorem marcar_notificado_exatamente_uma_vez_witness :
    ((marcar_alerta_notificado_uma_vez (fun _ => some emptyAlert) "a1" 3).2 = true ∧
      (marcar_alerta_notificado_uma_vez (fun _ => some emptyAlert) "a1" 3).1 "a1" =
        some { emptyAlert with notified := some true, notified_at := some 3 }) ∧
    countTrue (runMarks (fun _ => some emptyAlert) "a1" [3, 4, 5]).2 = 1 :=
  ⟨(marcar_notificado_exatamente_uma_vez (fun _ => some emptyAlert) "a1" emptyAlert rfl).1
      (by decide) 3,
   (marcar_notificado_exatamente_uma_vez (fun _ => some emptyAlert) "a1" emptyAlert rfl).2.2
      (by decide) 3 [4, 5]⟩

/-- Claim C10: when no record exists under the alert id, the conditional
update of `marcar_alerta_notificado_uma_vez` passes its
`attribute_not_exists(notified)` branch, upserts a fresh item holding only
the notified fields, and returns true. -/
theorem marcar_notificado_sem_registro (store : AlertStore) (alertaId : String) (now : ℕ)
    (h : store alertaId = none) :
    (marcar_alerta_notificado_uma_vez store alertaId now).2 = true ∧
    (marcar_alerta_notificado_uma_vez store alertaId now).1 alertaId =
      some { emptyAlert with notified := some true, notified_at := some now } := by
  unfold marcar_alerta_notificado_uma_vez
  rw [h]
  exact ⟨rfl, updateStore_same store alertaId _⟩

/-- Witness for C10: marking an unknown alert id on an empty table
succeeds and creates the fresh notified-only item. -/
theorem marcar_notificado_sem_registro_witness :
    (marcar_alerta_notificado_uma_vez (fun _ => none) "a9" 7).2 = true ∧
    (marcar_alerta_notificado_uma_vez (fun _ => none) "a9" 7).1 "a9" =
      some { emptyAlert with notified := some true, notified_at := some 7 } :=
  marcar_notificado_sem_registro (fun _ => none) "a9" 7 rfl

theorem marcar_resolvido_none (store : AlertStore) (alertaId : String) (now : ℕ)
    (h : store alertaId = none) :
    marcar_alerta_resolvido store alertaId now = (store, false) := by
  unfold marcar_alerta_resolvido
  rw [h]

theorem marcar_resolvido_some (store : AlertStore) (alertaId : String) (now : ℕ)
    (rec : AlertRecord) (h : store alertaId = some rec) :
    marcar_alerta_resolvido store alertaId now =
      (updateStore store alertaId
        { rec with resolvido := some true, data_resolvido := some now }, true) := by
  unfold marcar_alerta_resolvido
  rw [h]

theorem marcar_upsert (store : AlertStore) (alertaId : String) (now : ℕ)
    (h : store alertaId = none) :
    marcar_alerta_notificado_uma_vez store alertaId now =
      (updateStore store alertaId
        { emptyAlert with notified := some true, notified_at := some now }, true) := by
  unfold marcar_alerta_notificado_uma_vez
  rw [h]

/-- Claim C7: `marcar_alerta_resolvido` returns false -- a result, not a
crash -- on an unknown alert id, leaving the table unchanged; on an
existing alert it sets `resolvido = true` and `data_resolvido = now` and
returns true; and a second resolve of the same alert still reports
success. -/
theorem marcar_resolvido_spec (store : AlertStore) (alertaId : String) (now now2 : ℕ) :
    (store alertaId = none → marcar_alerta_resolvido store alertaId now = (store, false))
  ∧ (∀ rec, store alertaId = some rec →
        (marcar_alerta_resolvido store alertaId now).2 = true ∧
        (marcar_alerta_resolvido store alertaId now).1 alertaId =
          some { rec with resolvido := some true, data_resolvido := some now } ∧
        (marcar_alerta_resolvido
            (marcar_alerta_resolvido store alertaId now).1 alertaId now2).2 = true) := by
  constructor
  · intro h
    unfold marcar_alerta_resolvido
    rw [h]
  · intro rec h
    have h1 : marcar_alerta_resolvido store alertaId now =
        (updateStore store alertaId
          { rec with resolvido := some true, data_resolvido := some now }, true) := by
      unfold marcar_alerta_resolvido
      rw [h]
    refine ⟨by rw [h1], by rw [h1]; exact updateStore_same store alertaId _, ?_⟩
    rw [h1]
    show (marcar_alerta_resolvido
        (updateStore store alertaId
          { rec with resolvido := some true, data_resolvido := some now })
        alertaId now2).2 = true
    rw [marcar_resolvido_some _ alertaId now2 _ (updateStore_same store alertaId _)]

/-- Witness for C7: resolving on an empty table fails with a plain false;
resolving an existing alert succeeds, stamps the resolution fields, and a
second resolve still reports success. -/
theorem marcar_resolvido_spec_witness :
    marcar_alerta_resolvido (fun _ => none) "a1" 3 = ((fun _ => none : AlertStore), false)
  ∧ (marcar_alerta_resolvido (fun _ => some emptyAlert) "a1" 3).2 = true
  ∧ (marcar_alerta_resolvido (fun _ => some emptyAlert) "a1" 3).1 "a1" =
      some { emptyAlert with resolvido := some true, data_resolvido := some 3 }
  ∧ (marcar_alerta_resolvido
      (marcar_alerta_resolvido (fun _ => some emptyAlert) "a1" 3).1 "a1" 4).2 = true :=
  ⟨(marcar_resolvido_spec (fun _ => none) "a1" 3 4).1 rfl,
   ((marcar_resolvido_spec (fun _ => some emptyAlert) "a1" 3 4).2 emptyAlert rfl).1,
   ((marcar_resolvido_spec (fun _ => some emptyAlert) "a1" 3 4).2 emptyAlert rfl).2.1,
   ((marcar_resolvido_spec (fun _ => some emptyAlert) "a1" 3 4).2 emptyAlert rfl).2.2⟩

/-- Counterexample for C5: an alert with `resolvido = true` is not
terminal.  On a table holding one resolved alert, a second resolve at a
later instant rewrites `data_resolvido`, and `marcar_alerta_notificado_uma_vez`
still succeeds and rewrites the notified fields -- both change the record
after resolution. -/
theorem alerta_resolvido_ainda_muda :
    (updateStore (fun _ => none) "a1" alertaResolvido) "a1" = some alertaResolvido
  ∧ alertaResolvido.resolvido = some true
  ∧ (marcar_alerta_resolvido (updateStore (fun _ => none) "a1" alertaResolvido) "a1" 9).1 "a1" ≠
      some alertaResolvido
  ∧ (marcar_alerta_notificado_uma_vez
      (updateStore (fun _ => none) "a1" alertaResolvido) "a1" 9).2 = true
  ∧ (marcar_alerta_notificado_uma_vez
      (updateStore (fun _ => none) "a1" alertaResolvido) "a1" 9).1 "a1" ≠
      some alertaResolvido := by
  decide

/-- Claim C5 (amended): a resolved alert stays resolved -- no core
operation clears `resolvido = true` or deletes the record -- but the state
is not terminal: a second resolve rewrites `data_resolvido` and
`marcar_alerta_notificado_uma_vez` may still set the notified fields of a
resolved alert. -/
theorem resolvido_preservado (store : AlertStore) (alertaId alvoId : String) (now : ℕ)
    (rec : AlertRecord) (hrec : store alertaId = some rec)
    (hres : rec.resolvido = some true) :
    (∃ rec2, (marcar_alerta_resolvido store alvoId now).1 alertaId = some rec2 ∧
        rec2.resolvido = some true)
  ∧ (∃ rec2, (marcar_alerta_notificado_uma_vez store alvoId now).1 alertaId = some rec2 ∧
        rec2.resolvido = some true) := by
  constructor
  · by_cases heq : alertaId = alvoId
    · subst heq
      unfold marcar_alerta_resolvido
      rw [hrec]
      exact ⟨_, updateStore_same store alertaId _, by simp [hres]⟩
    · cases halvo : store alvoId with
      | none =>
          rw [marcar_resolvido_none store alvoId now halvo]
          exact ⟨rec, hrec, hres⟩
      | some r2 =>
          rw [marcar_resolvido_some store alvoId now r2 halvo]
          refine ⟨rec, ?_, hres⟩
          show updateStore store alvoId _ alertaId = some rec
          rw [updateStore_other store alvoId alertaId _ heq]
          exact hrec
  · by_cases heq : alertaId = alvoId
    · subst heq
      by_cases hm : rec.notified = some true
      · rw [marcar_fail_of_marked store alertaId now rec hrec hm]
        exact ⟨rec, hrec, hres⟩
      · rw [marcar_success store alertaId now rec hrec hm]
        exact ⟨_, updateStore_same store alertaId _, by simp [hres]⟩
    · cases halvo : store alvoId with
      | none =>
          rw [marcar_upsert store alvoId now halvo]
          refine ⟨rec, ?_, hres⟩
          show updateStore store alvoId _ alertaId = some rec
          rw [updateStore_other store alvoId alertaId _ heq]
          exact hrec
      | some r2 =>
          by_cases hm : r2.notified = some true
          · rw [marcar_fail_of_marked store alvoId now r2 halvo hm]
            exact ⟨rec, hrec, hres⟩
          · rw [marcar_success store alvoId now r2 halvo hm]
            refine ⟨rec, ?_, hres⟩
            show updateStore store alvoId _ alertaId = some rec
            rw [updateStore_other store alvoId alertaId _ heq]
            exact hrec

/-- Witness for C5 (amended): on a table holding one resolved alert, both
re-resolution and mark-notified leave `resolvido = true` in place. -/
theorem resolvido_preservado_witness :
    (∃ rec2, (marcar_alerta_resolvido (fun _ => some alertaResolvido) "a1" 9).1 "a1" =
        some rec2 ∧ rec2.resolvido = some true)
  ∧ (∃ rec2, (marcar_alerta_notificado_uma_vez (fun _ => some alertaResolvido) "a1" 9).1 "a1" =
        some rec2 ∧ rec2.resolvido = some true) :=
  resolvido_preservado (fun _ => some alertaResolvido) "a1" "a1" 9 alertaResolvido rfl rfl

/-- Counterexample for C4: the claim says the external send is invoked
only when `marcar_alerta_notificado_uma_vez` returned true, but in the
fallback branch of app.py lines 163-165 (no DB service) a leader sends the
notification without any conditional mark: for a critical alert with
`hasDb = false` and local leadership, the send happens and the mark is
never attempted. -/
theorem despacho_fallback_sem_marcacao :
    (despachar_notificacao_critica "CRITICO" false true (fun _ => none) "a1" 0).2.sendCalled =
      true
  ∧ (despachar_notificacao_critica "CRITICO" false true (fun _ => none) "a1" 0).2.markCalled =
      false :=
  ⟨rfl, rfl⟩

/-- Claim C4 (amended): critical-notification dispatch is a no-op unless
the severity is `CRITICO`, and a non-leader does nothing; when critical
and leader with the DB service available, it calls
`marcar_alerta_notificado_uma_vez` and sends iff that returned true; when
critical and leader without a DB service, it sends without the
exactly-once mark (in-memory fallback). -/
theorem despacho_critico_caracterizacao (severidade : String) (hasDb isLeader : Bool)
    (store : AlertStore) (alertaId : String) (now : ℕ) :
    (severidade ≠ "CRITICO" →
        despachar_notificacao_critica severidade hasDb isLeader store alertaId now =
          (store, ⟨false, false⟩))
  ∧ (isLeader = false →
        despachar_notificacao_critica severidade hasDb isLeader store alertaId now =
          (store, ⟨false, false⟩))
  ∧ (severidade = "CRITICO" → isLeader = true → hasDb = true →
        despachar_notificacao_critica severidade hasDb isLeader store alertaId now =
          ((marcar_alerta_notificado_uma_vez store alertaId now).1,
            ⟨true, (marcar_alerta_notificado_uma_vez store alertaId now).2⟩))
  ∧ (severidade = "CRITICO" → isLeader = true → hasDb = false →
        despachar_notificacao_critica severidade hasDb isLeader store alertaId now =
          (store, ⟨false, true⟩)) := by
  refine ⟨?_, ?_, ?_, ?_⟩
  · intro h
    simp [despachar_notificacao_critica, h]
  · intro h
    subst h
    by_cases hs : severidade = "CRITICO"
    · simp [despachar_notificacao_critica, hs]
    · simp [despachar_notificacao_critica, hs]
  · intro hs hl hd
    subst hs; subst hl; subst hd
    simp [despachar_notificacao_critica]
  · intro hs hl hd
    subst hs; subst hl; subst hd
    simp [despachar_notificacao_critica]

/-- Witness for C4 (amended): a HIGH alert is a no-op, a critical alert on
a follower is a no-op, and a critical alert on a leader with the DB goes
through the conditional mark. -/
theorem despacho_critico_caracterizacao_witness :
    despachar_notificacao_critica "ALTO" true true (fun _ => some emptyAlert) "a1" 2 =
      ((fun _ => some emptyAlert : AlertStore), ⟨false, false⟩)
  ∧ despachar_notificacao_critica "CRITICO" true false (fun _ => some emptyAlert) "a1" 2 =
      ((fun _ => some emptyAlert : AlertStore), ⟨false, false⟩)
  ∧ despachar_notificacao_critica "CRITICO" true true (fun _ => some emptyAlert) "a1" 2 =
      ((marcar_alerta_notificado_uma_vez (fun _ => some emptyAlert) "a1" 2).1,
        ⟨true, (marcar_alerta_notificado_uma_vez (fun _ => some emptyAlert) "a1" 2).2⟩) :=
  ⟨(despacho_critico_caracterizacao "ALTO" true true (fun _ => some emptyAlert) "a1" 2).1
      (by decide),
   (despacho_critico_caracterizacao "CRITICO" true false (fun _ => some emptyAlert) "a1" 2).2.1
      rfl,
   (despacho_critico_caracterizacao "CRITICO" true true (fun _ => some emptyAlert) "a1" 2).2.2.1
      rfl rfl rfl⟩

theorem receber_out_of_range (dados : List Reading) (store : AlertStore)
    (hasDb isLeader : Bool) (idSensor : String) (temperatura : ℚ) (ts now : ℕ)
    (alertaId : String) (hcond : temperatura < 2 ∨ temperatura > 8) :
    receber_temperatura dados store hasDb isLeader idSensor temperatura ts now alertaId =
      { dados := dados ++ [⟨idSensor, temperatura, ts⟩],
        alertas := (criar_alerta_emergencia store hasDb isLeader idSensor temperatura
          "TEMPERATURA_CRITICA" "Temperatura critica detectada - fora da faixa segura"
          now alertaId).2.1,
        alerta := some (criar_alerta_emergencia store hasDb isLeader idSensor temperatura
          "TEMPERATURA_CRITICA" "Temperatura critica detectada - fora da faixa segura"
          now alertaId).1,
        despacho := some (criar_alerta_emergencia store hasDb isLeader idSensor temperatura
          "TEMPERATURA_CRITICA" "Temperatura critica detectada - fora da faixa segura"
          now alertaId).2.2,
        alerta_criado := true, status := "AVISO" } := by
  unfold receber_temperatura
  rw [if_pos hcond]

theorem receber_in_range (dados : List Reading) (store : AlertStore)
    (hasDb isLeader : Bool) (idSensor : String) (temperatura : ℚ) (ts now : ℕ)
    (alertaId : String) (hcond : ¬(temperatura < 2 ∨ temperatura > 8)) :
    receber_temperatura dados store hasDb isLeader idSensor temperatura ts now alertaId =
      { dados := dados ++ [⟨idSensor, temperatura, ts⟩], alertas := store, alerta := none,
        despacho := none, alerta_criado := false, status := "OK" } := by
  unfold receber_temperatura
  rw [if_neg hcond]

/-- Claim C6: ingestion persists the reading unconditionally (also when
the temperature is within range); an alert of type `TEMPERATURA_CRITICA`
is raised -- and handed to the critical dispatcher -- iff the temperature
is below 2.0 or above 8.0; the `alerta_criado` flag of the acknowledgement
mirrors that condition; and a reading of 5.0 is persisted with no alert
created. -/
theorem receber_temperatura_spec (dados : List Reading) (store : AlertStore)
    (hasDb isLeader : Bool) (idSensor : String) (temperatura : ℚ) (ts now : ℕ)
    (alertaId : String) :
    (receber_temperatura dados store hasDb isLeader idSensor temperatura ts
        now alertaId).dados = dados ++ [⟨idSensor, temperatura, ts⟩]
  ∧ ((receber_temperatura dados store hasDb isLeader idSensor temperatura ts
        now alertaId).alerta_criado = true ↔ temperatura < 2 ∨ temperatura > 8)
  ∧ ((receber_temperatura dados store hasDb isLeader idSensor temperatura ts
        now alertaId).despacho.isSome = true ↔ temperatura < 2 ∨ temperatura > 8)
  ∧ (temperatura < 2 ∨ temperatura > 8 →
        ∃ rec, (receber_temperatura dados store hasDb isLeader idSensor temperatura ts
            now alertaId).alerta = some rec ∧
          rec.tipo_alerta = some "TEMPERATURA_CRITICA" ∧ rec.severidade = some "CRITICO")
  ∧ (¬(temperatura < 2 ∨ temperatura > 8) →
        (receber_temperatura dados store hasDb isLeader idSensor temperatura ts
            now alertaId).alerta = none ∧
        (receber_temperatura dados store hasDb isLeader idSensor temperatura ts
            now alertaId).alertas = store)
  ∧ (receber_temperatura dados store hasDb isLeader idSensor (5 : ℚ) ts
        now alertaId).alerta_criado = false := by
  have h5 : ¬ ((5 : ℚ) < 2 ∨ (5 : ℚ) > 8) := by norm_num
  have hlast : (receber_temperatura dados store hasDb isLeader idSensor (5 : ℚ) ts
      now alertaId).alerta_criado = false := by
    rw [receber_in_range dados store hasDb isLeader idSensor 5 ts now alertaId h5]
  by_cases hcond : temperatura < 2 ∨ temperatura > 8
  · rw [receber_out_of_range dados store hasDb isLeader idSensor temperatura ts now
      alertaId hcond]
    exact ⟨rfl, by simp [hcond], by simp [hcond],
      fun _ => ⟨_, rfl, rfl, rfl⟩, fun hc => absurd hcond hc, hlast⟩
  · rw [receber_in_range dados store hasDb isLeader idSensor temperatura ts now
      alertaId hcond]
    exact ⟨rfl, by simp [hcond], by simp [hcond],
      fun hc => absurd hc hcond, fun _ => ⟨rfl, rfl⟩, hlast⟩

/-- Witness for C6: a 15.5 degree reading is appended and creates a
critical `TEMPERATURA_CRITICA` alert; a 5.0 degree reading is appended
with no alert. -/
theorem receber_temperatura_spec_witness :
    (receber_temperatura [] (fun _ => none) true true "lab-1" (155 / 10 : ℚ) 1 2
        "a1").dados = [⟨"lab-1", 155 / 10, 1⟩]
  ∧ (∃ rec, (receber_temperatura [] (fun _ => none) true true "lab-1" (155 / 10 : ℚ) 1 2
        "a1").alerta = some rec ∧
      rec.tipo_alerta = some "TEMPERATURA_CRITICA" ∧ rec.severidade = some "CRITICO")
  ∧ (receber_temperatura [] (fun _ => none) true true "lab-1" (5 : ℚ) 1 2
        "a1").alerta_criado = false :=
  ⟨(receber_temperatura_spec [] (fun _ => none) true true "lab-1" (155 / 10 : ℚ) 1 2
      "a1").1,
   (receber_temperatura_spec [] (fun _ => none) true true "lab-1" (155 / 10 : ℚ) 1 2
      "a1").2.2.2.1 (by norm_num),
   (receber_temperatura_spec [] (fun _ => none) true true "lab-1" (7 : ℚ) 1 2
      "a1").2.2.2.2.2⟩

/-- Claim C8: the replication status is `em dia` ("in sync") iff the
primary and replica counts match for both tracked collections, `atraso`
("lagging") when both replica counts are available and any differs, and
`não habilitada` ("not enabled"), without erroring, when a replica counter
is unavailable; in particular primary 100 versus replica 98 for the
readings collection yields `atraso`. -/
theorem status_replicacao_spec (contTemp : ℕ) (contTempReplica : Option ℕ)
    (contAlertas : ℕ) (contAlertasReplica : Option ℕ) :
    (status_replicacao contTemp contTempReplica contAlertas contAlertasReplica = "em dia" ↔
        contTempReplica = some contTemp ∧ contAlertasReplica = some contAlertas)
  ∧ (status_replicacao contTemp contTempReplica contAlertas contAlertasReplica =
        "não habilitada" ↔ contTempReplica = none ∨ contAlertasReplica = none)
  ∧ (status_replicacao contTemp contTempReplica contAlertas contAlertasReplica = "atraso" ↔
        (∃ a, contTempReplica = some a) ∧ (∃ b, contAlertasReplica = some b) ∧
          ¬(contTempReplica = some contTemp ∧ contAlertasReplica = some contAlertas))
  ∧ (∀ b : ℕ, status_replicacao 100 (some 98) contAlertas (some b) = "atraso") := by
  have hscen : ∀ b : ℕ, status_replicacao 100 (some 98) contAlertas (some b) = "atraso" := by
    intro b
    norm_num [status_replicacao]
  refine ⟨?_, ?_, ?_, hscen⟩
  · cases contTempReplica with
    | none => simp [status_replicacao]
    | some tr =>
        cases contAlertasReplica with
        | none => simp [status_replicacao]
        | some ar =>
            by_cases hm : tr = contTemp ∧ ar = contAlertas
            · simp [status_replicacao, hm]
            · rw [show status_replicacao contTemp (some tr) contAlertas (some ar) =
                "atraso" from by simp [status_replicacao, hm]]
              simp [hm]
  · cases contTempReplica with
    | none => simp [status_replicacao]
    | some tr =>
        cases contAlertasReplica with
        | none => simp [status_replicacao]
        | some ar =>
            by_cases hm : tr = contTemp ∧ ar = contAlertas
            · simp [status_replicacao, hm]
            · simp [status_replicacao, hm]
  · cases contTempReplica with
    | none => simp [status_replicacao]
    | some tr =>
        cases contAlertasReplica with
        | none => simp [status_replicacao]
        | some ar =>
            by_cases hm : tr = contTemp ∧ ar = contAlertas
            · simp [status_replicacao, hm]
            · simp [status_replicacao, hm]

/-- Witness for C8: matching counters report in-sync; a missing replica
counter reports not-enabled; the 100 versus 98 scenario reports lagging. -/
theorem status_replicacao_spec_witness :
    status_replicacao 100 (some 100) 7 (some 7) = "em dia"
  ∧ status_replicacao 100 none 7 (some 7) = "não habilitada"
  ∧ status_replicacao 100 (some 98) 7 (some 7) = "atraso" :=
  ⟨(status_replicacao_spec 100 (some 100) 7 (some 7)).1.mpr ⟨rfl, rfl⟩,
   (status_replicacao_spec 100 none 7 (some 7)).2.1.mpr (Or.inl rfl),
   (status_replicacao_spec 100 (some 98) 7 (some 7)).2.2.2 7⟩
